import Mathlib

/-!
Verification of the publish workflow of the blog-agent repository.

The Python function `publish_blog_to_github` in `src/blog_agent/tools.py`
loads a blog-content artifact and runs a linear sequence of HTTP calls
against the GitHub REST API: fetch repository metadata, resolve the base
branch SHA, create a branch, probe for an existing file, write the file,
and open (or locate) a pull request.

The shallow embedding below models:
  - JSON values (also Python values appearing in result dictionaries;
    `Json.null` doubles as Python `None`);
  - HTTP responses, transport exceptions, and the behaviour of the seven
    possible calls of one invocation as an explicit environment (`Http`);
  - the request trace: the list of HTTP requests the function issues, in
    order, so that properties such as "issues zero network calls" and
    "the write request carries the exact base64 content" are statable;
  - Python base64 (`base64.b64encode`) and UTF-8 (`str.encode`) as
    executable Lean functions on byte lists (`Nat` below 256).
-/

namespace BlogAgent

/-- JSON values as decoded by the Python `json` module; also used for the
values of the result dictionaries the tool returns. -/
inductive Json where
  | null : Json
  | bool (b : Bool) : Json
  | num (n : Int) : Json
  | str (s : String) : Json
  | arr (elems : List Json) : Json
  | obj (fields : List (String × Json)) : Json

/-- First-match lookup in an association list with string keys, as Python
dictionary lookup (parsed JSON objects have distinct keys). -/
def lookupStr (fields : List (String × Json)) (key : String) : Option Json :=
  match fields with
  | [] => none
  | (k, v) :: rest => if k = key then some v else lookupStr rest key

/-- A Python exception relevant to the workflow: the custom `GitHubError`
(carrying `message` and `details`), a `requests` transport exception, or any
other exception (attribute errors, JSON decode errors, ...), identified by
the string `str(e)` that the handler puts into the `details` field. -/
inductive PyExc where
  | gitHubError (message : String) (details : Option String) : PyExc
  | requestException (message : String) : PyExc
  | otherException (message : String) : PyExc

/-- Python `d.get(key)` on a value: succeeds with the optional field when the
value is a dictionary, raises an `AttributeError` otherwise. -/
def Json.dictGet (j : Json) (key : String) : Except PyExc (Option Json) :=
  match j with
  | .obj fields => .ok (lookupStr fields key)
  | _ => .error (.otherException "AttributeError: no attribute get")

/-- Python truthiness of a decoded JSON value. -/
def Json.truthy : Json → Bool
  | .null => false
  | .bool b => b
  | .num n => n ≠ 0
  | .str s => s ≠ ""
  | .arr elems => ¬ elems.isEmpty
  | .obj fields => ¬ fields.isEmpty

/-- Python `x[0]`: the head of a list; on every other decoded JSON value the
workflow would raise (index, key or attribute error). -/
def Json.index0 : Json → Except PyExc Json
  | .arr (x :: _) => .ok x
  | _ => .error (.otherException "cannot index value at 0")

/-- Python `str()` of a decoded JSON value, used when such a value is spliced
into an f-string URL. Containers would render via `repr`; no specified path
produces or reads that text, so a marker stands in for it. -/
def pyStr : Json → String
  | .null => "None"
  | .bool true => "True"
  | .bool false => "False"
  | .num n => toString n
  | .str s => s
  | .arr _ => "<list>"
  | .obj _ => "<dict>"

/-- Does `needle` start `hay`? (helper for the Python `in` test on `str`). -/
def charsStartWith : List Char → List Char → Bool
  | _, [] => true
  | [], _ :: _ => false
  | c :: cs, d :: ds => c = d && charsStartWith cs ds

/-- Does `hay` contain `needle` as a contiguous run? -/
def charsContain : List Char → List Char → Bool
  | [], needle => needle.isEmpty
  | c :: rest, needle => charsStartWith (c :: rest) needle || charsContain rest needle

/-- Python `needle in hay` on strings. -/
def pyIn (needle hay : String) : Bool :=
  charsContain hay.data needle.data

/-! ### Base64 and UTF-8, as used by
`base64.b64encode(content.encode("utf-8")).decode("utf-8")` -/

/-- The base64 digit for a 6-bit value. -/
def b64Char (n : Nat) : Char :=
  "ABCDEFGHIJKLMNOPQRSTUVWXYZabcdefghijklmnopqrstuvwxyz0123456789+/".data.getD n 'A'

/-- Standard base64 encoding of a byte list (RFC 4648, with padding),
matching Python `base64.b64encode`. -/
def b64Encode : List Nat → List Char
  | [] => []
  | [a] => [b64Char (a / 4), b64Char (a % 4 * 16), '=', '=']
  | [a, b] => [b64Char (a / 4), b64Char (a % 4 * 16 + b / 16), b64Char (b % 16 * 4), '=']
  | a :: b :: c :: rest =>
      b64Char (a / 4) :: b64Char (a % 4 * 16 + b / 16) ::
        b64Char (b % 16 * 4 + c / 64) :: b64Char (c % 64) :: b64Encode rest

/-- The 6-bit value of a base64 digit. -/
def b64CharVal (c : Char) : Option Nat :=
  if 'A' ≤ c ∧ c ≤ 'Z' then some (c.toNat - 65)
  else if 'a' ≤ c ∧ c ≤ 'z' then some (c.toNat - 97 + 26)
  else if '0' ≤ c ∧ c ≤ '9' then some (c.toNat - 48 + 52)
  else if c = '+' then some 62
  else if c = '/' then some 63
  else none

/-- Standard base64 decoding (strict quads with padding). -/
def b64Decode : List Char → Option (List Nat)
  | [] => some []
  | a :: b :: c :: d :: rest =>
    match b64CharVal a, b64CharVal b with
    | some va, some vb =>
      if c = '=' then
        if d = '=' && rest.isEmpty then some [va * 4 + vb / 16] else none
      else
        match b64CharVal c with
        | some vc =>
          if d = '=' then
            if rest.isEmpty then some [va * 4 + vb / 16, vb % 16 * 16 + vc / 4] else none
          else
            match b64CharVal d with
            | some vd =>
              match b64Decode rest with
              | some tl =>
                  some ((va * 4 + vb / 16) :: (vb % 16 * 16 + vc / 4) ::
                    (vc % 4 * 64 + vd) :: tl)
              | none => none
            | none => none
        | none => none
    | _, _ => none
  | _ => none

/-- UTF-8 encoding of one Unicode scalar value, as bytes. -/
def utf8EncodeChar (c : Nat) : List Nat :=
  if c < 0x80 then [c]
  else if c < 0x800 then [0xC0 + c / 64, 0x80 + c % 64]
  else if c < 0x10000 then [0xE0 + c / 4096, 0x80 + c / 64 % 64, 0x80 + c % 64]
  else [0xF0 + c / 262144, 0x80 + c / 4096 % 64, 0x80 + c / 64 % 64, 0x80 + c % 64]

/-- UTF-8 encoding of a character list. -/
def utf8EncodeList : List Char → List Nat
  | [] => []
  | c :: cs => utf8EncodeChar c.toNat ++ utf8EncodeList cs

/-- Python `content.encode("utf-8")`, as a byte list. -/
def utf8Encode (s : String) : List Nat :=
  utf8EncodeList s.data

/-! ### The publish workflow of `src/blog_agent/tools.py` -/

/-- `GITHUB_API_URL` in `tools.py`. -/
def GITHUB_API_URL : String := "https://api.github.com"

/-- `BLOG_ARTIFACT_FILENAME` in `tools.py`. -/
def BLOG_ARTIFACT_FILENAME : String := "blog_content.md"

/-- The environment variables the tool reads; `none` models an unset
variable (`os.getenv` returns `None`). -/
structure Env where
  blog_github_token : Option String
  blog_repo_owner : Option String
  blog_repo_name : Option String
  blog_content_path : Option String

/-- `_get_repo_config`: owner, repo and content path with their defaults. -/
structure RepoConfig where
  owner : String
  repo : String
  content_path : String

def get_repo_config (env : Env) : RepoConfig :=
  { owner := env.blog_repo_owner.getD "queryplanner"
  , repo := env.blog_repo_name.getD "blogs"
  , content_path := env.blog_content_path.getD "src/data/blog" }

/-- `_get_github_headers`: raises `GitHubError` when `BLOG_GITHUB_TOKEN` is
unset or empty (Python `if not token`), otherwise returns the header list. -/
def get_github_headers (env : Env) : Except PyExc (List (String × String)) :=
  match env.blog_github_token with
  | none => .error (.gitHubError "BLOG_GITHUB_TOKEN not configured" none)
  | some token =>
    if token = "" then .error (.gitHubError "BLOG_GITHUB_TOKEN not configured" none)
    else
      .ok [("Authorization", "Bearer " ++ token),
           ("Accept", "application/vnd.github.v3+json"),
           ("X-GitHub-Api-Version", "2022-11-28")]

/-- An HTTP response: status code, raw body text, and the decoded JSON body
(`none` models a body on which `resp.json()` raises). The workflow never
relies on any relation between `text` and `jsonBody`. -/
structure Response where
  status : Nat
  text : String
  jsonBody : Option Json

/-- `resp.json()`. -/
def respJson (r : Response) : Except PyExc Json :=
  match r.jsonBody with
  | some j => .ok j
  | none => .error (.otherException "JSONDecodeError: invalid body")

/-- The outcome of one `requests` call: a transport-layer exception, or a
response. -/
inductive CallOutcome where
  | raise (e : PyExc) : CallOutcome
  | response (r : Response) : CallOutcome

/-- The behaviour of the HTTP layer for one invocation: what each of the
seven possible calls would yield if issued. The workflow issues them in a
fixed order, each at most once. -/
structure Http where
  repoInfo : CallOutcome
  refLookup : CallOutcome
  branchCreate : CallOutcome
  fileProbe : CallOutcome
  fileWrite : CallOutcome
  prCreate : CallOutcome
  prList : CallOutcome

/-- A record of one issued HTTP request: method, URL, query parameters and
JSON payload (empty lists when absent). -/
structure Request where
  method : String
  url : String
  params : List (String × String)
  body : List (String × Json)

/-- The keyword arguments of `publish_blog_to_github`, exactly as in the
Python signature (besides `tool_context`). -/
structure PublishArgs where
  branch_name : String
  file_name : String
  commit_message : String
  pr_title : String
  pr_body : String
  deriving DecidableEq

/-- The three `except` clauses at the bottom of `publish_blog_to_github`,
turning a raised exception into the structured error dictionary. -/
def handleExc : PyExc → List (String × Json)
  | .gitHubError m d =>
      [("status", .str "error"), ("message", .str m),
       ("details", match d with | none => .null | some s => .str s)]
  | .requestException m =>
      [("status", .str "error"),
       ("message", .str "Network error while communicating with GitHub"),
       ("details", .str m)]
  | .otherException m =>
      [("status", .str "error"), ("message", .str "An unexpected error occurred"),
       ("details", .str m)]

/-- Lines 200 to 208 of `tools.py`: `file_sha` starts as `None` and is set
from the probe response only when the probe returned 200 (reading the JSON
body can raise). -/
def probeFileSha (resp4 : Response) : Except PyExc Json :=
  if resp4.status = 200 then
    match respJson resp4 with
    | .error e => .error e
    | .ok j4 =>
      match j4.dictGet "sha" with
      | .error e => .error e
      | .ok shaOpt => .ok (shaOpt.getD .null)
  else .ok .null

/-- Steps 4 to 6 of `publish_blog_to_github` (file probe, file write, pull
request), entered after the branch-create step has been accepted; `trace` is
the list of requests issued so far. Split out of the main definition only so
that both outcomes of the branch-create conditional share it, exactly as the
Python control flow falls through to line 199. -/
def publishAfterBranch (args : PublishArgs) (http : Http) (content : String)
    (full_file_path base_url repo_owner : String) (default_branch : Json)
    (trace : List Request) : List (String × Json) × List Request :=
  -- 4. Check if file already exists to get its SHA (for updates)
  let req4 : Request :=
    { method := "GET", url := base_url ++ "/contents/" ++ full_file_path,
      params := [("ref", args.branch_name)], body := [] }
  match http.fileProbe with
  | .raise e => (handleExc e, trace ++ [req4])
  | .response resp4 =>
    match probeFileSha resp4 with
    | .error e => (handleExc e, trace ++ [req4])
    | .ok file_sha =>
      -- 5. Create or update the file with exact content from artifact
      let content_b64 := String.mk (b64Encode (utf8Encode content))
      let file_data :=
        [("message", Json.str args.commit_message), ("content", Json.str content_b64),
         ("branch", Json.str args.branch_name)] ++
          (if file_sha.truthy then [("sha", file_sha)] else [])
      let req5 : Request :=
        { method := "PUT", url := base_url ++ "/contents/" ++ full_file_path,
          params := [], body := file_data }
      match http.fileWrite with
      | .raise e => (handleExc e, trace ++ [req4, req5])
      | .response resp5 =>
        if resp5.status ≠ 200 ∧ resp5.status ≠ 201 then
          ([("status", .str "error"),
            ("message", .str ("Failed to create file: " ++ toString resp5.status)),
            ("details", .str resp5.text)], trace ++ [req4, req5])
        else
          -- 6. Create pull request
          let req6 : Request :=
            { method := "POST", url := base_url ++ "/pulls", params := [],
              body := [("title", .str args.pr_title), ("body", .str args.pr_body),
                       ("head", .str args.branch_name), ("base", default_branch)] }
          match http.prCreate with
          | .raise e => (handleExc e, trace ++ [req4, req5, req6])
          | .response resp6 =>
            if resp6.status = 201 then
              match respJson resp6 with
              | .error e => (handleExc e, trace ++ [req4, req5, req6])
              | .ok j6 =>
                match j6.dictGet "html_url" with
                | .error e => (handleExc e, trace ++ [req4, req5, req6])
                | .ok urlOpt =>
                  ([("status", .str "success"),
                    ("message", .str "Blog post published successfully"),
                    ("pr_url", urlOpt.getD .null),
                    ("branch", .str args.branch_name),
                    ("file_path", .str full_file_path)], trace ++ [req4, req5, req6])
            else if resp6.status = 422 && pyIn "A pull request already exists" resp6.text then
              -- Try to find the existing PR
              let req7 : Request :=
                { method := "GET", url := base_url ++ "/pulls",
                  params := [("head", repo_owner ++ ":" ++ args.branch_name),
                             ("state", "open")], body := [] }
              match http.prList with
              | .raise e => (handleExc e, trace ++ [req4, req5, req6, req7])
              | .response resp7 =>
                if resp7.status = 200 then
                  match respJson resp7 with
                  | .error e => (handleExc e, trace ++ [req4, req5, req6, req7])
                  | .ok j7 =>
                    if j7.truthy then
                      match j7.index0 with
                      | .error e => (handleExc e, trace ++ [req4, req5, req6, req7])
                      | .ok first =>
                        match first.dictGet "html_url" with
                        | .error e => (handleExc e, trace ++ [req4, req5, req6, req7])
                        | .ok urlOpt =>
                          ([("status", .str "success"),
                            ("message", .str "Blog post published successfully"),
                            ("pr_url", urlOpt.getD .null),
                            ("branch", .str args.branch_name),
                            ("file_path", .str full_file_path)],
                           trace ++ [req4, req5, req6, req7])
                    else
                      ([("status", .str "error"),
                        ("message", .str "PR already exists but could not find its URL"),
                        ("details", .str resp6.text)], trace ++ [req4, req5, req6, req7])
                else
                  ([("status", .str "error"),
                    ("message", .str "PR already exists but could not find its URL"),
                    ("details", .str resp6.text)], trace ++ [req4, req5, req6, req7])
            else
              ([("status", .str "error"),
                ("message", .str ("Failed to create PR: " ++ toString resp6.status)),
                ("details", .str resp6.text)], trace ++ [req4, req5, req6])

/-- `publish_blog_to_github`. `store` is the artifact store
(`tool_context.load_artifact`): `store name = none` means no artifact,
`store name = some t` an artifact whose `text` attribute is `t` (itself
optional). The result is the returned dictionary together with the trace of
HTTP requests issued, in order. Each `handleExc` site corresponds to an
exception raised at that point in the Python body and caught by the
enclosing `try`. -/
def publish_blog_to_github (env : Env) (store : String → Option (Option String))
    (args : PublishArgs) (http : Http) : List (String × Json) × List Request :=
  match store BLOG_ARTIFACT_FILENAME with
  | none =>
      ([("status", .str "error"),
        ("message", .str "No blog content found. Writer must save first.")], [])
  | some none =>
      ([("status", .str "error"),
        ("message", .str "No blog content found. Writer must save first.")], [])
  | some (some content) =>
    let repo_config := get_repo_config env
    let repo_owner := repo_config.owner
    let repo_name := repo_config.repo
    let content_path := repo_config.content_path
    let full_file_path := content_path ++ "/" ++ args.file_name
    match get_github_headers env with
    | .error e => (handleExc e, [])
    | .ok _headers =>
      let base_url := GITHUB_API_URL ++ "/repos/" ++ repo_owner ++ "/" ++ repo_name
      -- 1. Get default branch
      let req1 : Request := { method := "GET", url := base_url, params := [], body := [] }
      match http.repoInfo with
      | .raise e => (handleExc e, [req1])
      | .response resp1 =>
        if resp1.status ≠ 200 then
          ([("status", .str "error"),
            ("message", .str ("Failed to fetch repo info: " ++ toString resp1.status)),
            ("details", .str resp1.text)], [req1])
        else
          match respJson resp1 with
          | .error e => (handleExc e, [req1])
          | .ok j1 =>
            match j1.dictGet "default_branch" with
            | .error e => (handleExc e, [req1])
            | .ok dbOpt =>
              let default_branch := dbOpt.getD (.str "main")
              -- 2. Get the SHA of the default branch
              let req2 : Request :=
                { method := "GET", url := base_url ++ "/git/ref/heads/" ++ pyStr default_branch,
                  params := [], body := [] }
              match http.refLookup with
              | .raise e => (handleExc e, [req1, req2])
              | .response resp2 =>
                if resp2.status ≠ 200 then
                  ([("status", .str "error"),
                    ("message", .str ("Failed to get branch ref: " ++ toString resp2.status)),
                    ("details", .str resp2.text)], [req1, req2])
                else
                  match respJson resp2 with
                  | .error e => (handleExc e, [req1, req2])
                  | .ok j2 =>
                    match j2.dictGet "object" with
                    | .error e => (handleExc e, [req1, req2])
                    | .ok objOpt =>
                      match (objOpt.getD (.obj [])).dictGet "sha" with
                      | .error e => (handleExc e, [req1, req2])
                      | .ok shaOpt =>
                        let base_sha := shaOpt.getD .null
                        if base_sha.truthy then
                          -- 3. Create new branch
                          let req3 : Request :=
                            { method := "POST", url := base_url ++ "/git/refs", params := [],
                              body := [("ref", .str ("refs/heads/" ++ args.branch_name)),
                                       ("sha", base_sha)] }
                          match http.branchCreate with
                          | .raise e => (handleExc e, [req1, req2, req3])
                          | .response resp3 =>
                            if resp3.status = 422 && pyIn "already exists" resp3.text then
                              publishAfterBranch args http content full_file_path
                                base_url repo_owner default_branch [req1, req2, req3]
                            else if resp3.status ≠ 201 then
                              ([("status", .str "error"),
                                ("message",
                                  .str ("Failed to create branch: " ++ toString resp3.status)),
                                ("details", .str resp3.text)], [req1, req2, req3])
                            else
                              publishAfterBranch args http content full_file_path
                                base_url repo_owner default_branch [req1, req2, req3]
                        else
                          ([("status", .str "error"),
                            ("message", .str "Could not get base SHA"),
                            ("details", .str resp2.text)], [req1, req2])

/-- Well-formedness of a result dictionary: a status of success or error,
and a string message. -/
def resultOk (d : List (String × Json)) : Prop :=
  (lookupStr d "status" = some (.str "success") ∨ lookupStr d "status" = some (.str "error")) ∧
    ∃ m, lookupStr d "message" = some (.str m)

/-! ### Concrete fixtures used by the witness theorems -/

/-- An environment with only the token set (owner, repo and content path
take their defaults). -/
def envTok : Env := ⟨some "tok", none, none, none⟩

/-- A store holding the artifact of the specification scenario under the
fixed artifact name. -/
def storeTest : String → Option (Option String) := fun n =>
  if n = "blog_content.md" then some (some "# Test Blog\n\nThis is the blog content.") else none

/-- The call arguments of the specification scenario. -/
def argsTest : PublishArgs :=
  ⟨"blog/test", "test.md", "feat: add test post", "Add test post", "Body text"⟩

/-- HTTP behaviour in which every call succeeds on first attempt. -/
def happyHttp : Http :=
  { repoInfo := .response ⟨200, "", some (.obj [("default_branch", .str "main")])⟩
  , refLookup := .response ⟨200, "", some (.obj [("object", .obj [("sha", .str "base-sha-123")])])⟩
  , branchCreate := .response ⟨201, "", none⟩
  , fileProbe := .response ⟨404, "", none⟩
  , fileWrite := .response ⟨201, "", none⟩
  , prCreate := .response ⟨201, "", some (.obj [("html_url", .str "https://github.com/pr/1")])⟩
  , prList := .response ⟨200, "", some (.arr [])⟩ }

/-- As `happyHttp`, but branch creation reports a conflict with an
already-existing reference. -/
def branchConflictHttp : Http :=
  { happyHttp with branchCreate := .response ⟨422, "Reference already exists", none⟩ }

/-- As `happyHttp`, but branch creation fails with a server error. -/
def branchFailHttp : Http :=
  { happyHttp with branchCreate := .response ⟨500, "boom", none⟩ }

/-- As `happyHttp`, but the PR already exists and the list lookup finds it. -/
def prConflictFoundHttp : Http :=
  { happyHttp with
      prCreate := .response ⟨422, "A pull request already exists for this head.", none⟩
      prList := .response
        ⟨200, "", some (.arr [.obj [("html_url", .str "https://github.com/pr/existing")]])⟩ }

/-- As `happyHttp`, but the PR already exists and the list lookup comes back
empty. -/
def prConflictEmptyHttp : Http :=
  { happyHttp with
      prCreate := .response ⟨422, "A pull request already exists for this head.", none⟩
      prList := .response ⟨200, "", some (.arr [])⟩ }

/-- As `happyHttp`, but the file probe finds an existing file with a sha. -/
def probeShaHttp : Http :=
  { happyHttp with fileProbe := .response ⟨200, "", some (.obj [("sha", .str "file-sha-1")])⟩ }

/-- As `happyHttp`, but the repository metadata carries no default-branch
field. -/
def noDefaultBranchHttp : Http :=
  { happyHttp with repoInfo := .response ⟨200, "", some (.obj [])⟩ }

/-- First argument record for exercising the absence of per-call repository
overrides. -/
def argsAlpha : PublishArgs := ⟨"branch-a", "file-a", "commit-a", "title-a", "body-a"⟩

/-- Second argument record, differing from `argsAlpha` in every field. -/
def argsBeta : PublishArgs := ⟨"branch-b", "file-b", "commit-b", "title-b", "body-b"⟩

/-! ### Correctness of the base64 / UTF-8 model -/

theorem char_toNat_lt (c : Char) : c.toNat < 1114112 := by
  have h := c.valid
  show c.val.toNat < 1114112
  rcases h with h | h
  · exact Nat.lt_trans h (by norm_num)
  · exact h.2

theorem utf8EncodeChar_lt (n : Nat) (hn : n < 1114112) :
    ∀ x ∈ utf8EncodeChar n, x < 256 := by
  intro x hx
  unfold utf8EncodeChar at hx
  split at hx
  · simp at hx; omega
  · split at hx
    · simp at hx; omega
    · split at hx
      · simp at hx; omega
      · simp at hx; omega

theorem utf8Encode_lt (s : String) : ∀ x ∈ utf8Encode s, x < 256 := by
  show ∀ x ∈ utf8EncodeList s.data, x < 256
  induction s.data with
  | nil => intro x hx; simp [utf8EncodeList] at hx
  | cons c cs ih =>
    intro x hx
    simp only [utf8EncodeList, List.mem_append] at hx
    rcases hx with hx | hx
    · exact utf8EncodeChar_lt c.toNat (char_toNat_lt c) x hx
    · exact ih x hx

theorem b64CharVal_b64Char : ∀ n : Nat, n < 64 → b64CharVal (b64Char n) = some n := by decide

theorem b64Char_ne_pad : ∀ n : Nat, n < 64 → (b64Char n = '=') = False := by decide

/-- Decoding inverts encoding on byte lists. -/
theorem b64Decode_b64Encode : ∀ bs : List Nat, (∀ x ∈ bs, x < 256) →
    b64Decode (b64Encode bs) = some bs
  | [], _ => rfl
  | [a], h => by
      have ha : a < 256 := h a (by simp)
      have h1 : a / 4 < 64 := by omega
      have h2 : a % 4 * 16 < 64 := by omega
      simp only [b64Encode, b64Decode, b64CharVal_b64Char _ h1, b64CharVal_b64Char _ h2]
      norm_num
      omega
  | [a, b], h => by
      have ha : a < 256 := h a (by simp)
      have hb : b < 256 := h b (by simp)
      have h1 : a / 4 < 64 := by omega
      have h2 : a % 4 * 16 + b / 16 < 64 := by omega
      have h3 : b % 16 * 4 < 64 := by omega
      simp only [b64Encode, b64Decode, b64CharVal_b64Char _ h1, b64CharVal_b64Char _ h2,
        b64CharVal_b64Char _ h3, b64Char_ne_pad _ h3]
      norm_num
      constructor <;> omega
  | a :: b :: c :: rest, h => by
      have ha : a < 256 := h a (by simp)
      have hb : b < 256 := h b (by simp)
      have hc : c < 256 := h c (by simp)
      have ih := b64Decode_b64Encode rest (fun x hx => h x (by simp [hx]))
      have h1 : a / 4 < 64 := by omega
      have h2 : a % 4 * 16 + b / 16 < 64 := by omega
      have h3 : b % 16 * 4 + c / 64 < 64 := by omega
      have h4 : c % 64 < 64 := by omega
      match rest with
      | [] =>
        simp only [b64Encode, b64Decode, b64CharVal_b64Char _ h1, b64CharVal_b64Char _ h2,
          b64CharVal_b64Char _ h3, b64CharVal_b64Char _ h4, b64Char_ne_pad _ h3,
          b64Char_ne_pad _ h4]
        norm_num
        refine ⟨by omega, by omega, by omega⟩
      | r :: rs =>
        simp only [b64Encode, b64Decode, b64CharVal_b64Char _ h1, b64CharVal_b64Char _ h2,
          b64CharVal_b64Char _ h3, b64CharVal_b64Char _ h4, b64Char_ne_pad _ h3,
          b64Char_ne_pad _ h4, if_false]
        rw [show b64Decode (b64Encode (r :: rs)) = some (r :: rs) from ih]
        simp only [Option.some.injEq, List.cons.injEq, and_true]
        refine ⟨by omega, by omega, by omega⟩

/-- Decoding the base64 text the tool builds for a content string recovers
exactly the UTF-8 bytes of that string. -/
theorem b64_utf8_roundtrip (s : String) :
    b64Decode (b64Encode (utf8Encode s)) = some (utf8Encode s) :=
  b64Decode_b64Encode (utf8Encode s) (utf8Encode_lt s)

/-! ### Shared shape lemmas about the workflow -/

theorem dictGet_obj (f : List (String × Json)) (k : String) :
    (Json.obj f).dictGet k = .ok (lookupStr f k) := rfl

theorem handleExc_shape (e : PyExc) : resultOk (handleExc e) := by
  cases e <;> simp [handleExc, lookupStr, resultOk]

set_option maxHeartbeats 2000000 in
theorem afterBranch_shape (args : PublishArgs) (http : Http) (content : String)
    (ffp burl owner : String) (db : Json) (trace : List Request) :
    resultOk (publishAfterBranch args http content ffp burl owner db trace).1 := by
  unfold publishAfterBranch
  repeat' split
  all_goals first
    | exact handleExc_shape _
    | simp [resultOk, lookupStr]

set_option maxHeartbeats 2000000 in
theorem afterBranch_trace (args : PublishArgs) (http : Http) (content : String)
    (ffp burl owner : String) (db : Json) (trace : List Request) :
    ∃ s, (publishAfterBranch args http content ffp burl owner db trace).2 = trace ++ s := by
  unfold publishAfterBranch
  repeat' split
  all_goals exact ⟨_, rfl⟩

/-! ### The claims -/

/-- C3: if no artifact exists under the fixed name `blog_content.md` (the
load returns absent, or an artifact with no text), `publish_blog_to_github`
returns status error with a message containing "No blog content found", and
issues zero network calls. -/
theorem no_artifact_means_error_and_no_calls (env : Env)
    (store : String → Option (Option String)) (args : PublishArgs) (http : Http)
    (h : store BLOG_ARTIFACT_FILENAME = none ∨ store BLOG_ARTIFACT_FILENAME = some none) :
    (publish_blog_to_github env store args http).2 = [] ∧
    lookupStr (publish_blog_to_github env store args http).1 "status" = some (.str "error") ∧
    ∃ m, lookupStr (publish_blog_to_github env store args http).1 "message" = some (.str m) ∧
      pyIn "No blog content found" m = true := by
  have hr : publish_blog_to_github env store args http =
      ([("status", Json.str "error"),
        ("message", Json.str "No blog content found. Writer must save first.")], []) := by
    rcases h with h | h <;> simp [publish_blog_to_github, h]
  rw [hr]
  exact ⟨rfl, rfl, "No blog content found. Writer must save first.", rfl, by decide⟩

/-- Witness for C3 at a concrete empty store. -/
theorem no_artifact_means_error_and_no_calls_witness :
    (publish_blog_to_github envTok (fun _ => none) argsTest happyHttp).2 = [] ∧
    lookupStr (publish_blog_to_github envTok (fun _ => none) argsTest happyHttp).1 "status" =
      some (.str "error") ∧
    ∃ m, lookupStr (publish_blog_to_github envTok (fun _ => none) argsTest happyHttp).1
        "message" = some (.str m) ∧ pyIn "No blog content found" m = true :=
  no_artifact_means_error_and_no_calls envTok (fun _ => none) argsTest happyHttp (Or.inl rfl)

/-- C4 counterexample: with the token unset but the artifact also missing,
`publish_blog_to_github` returns the content-missing message, not the
auth-configuration error the claim promises regardless of the other
inputs (the artifact check at line 129 runs before the header check at
line 146). -/
theorem missing_token_counterexample :
    (publish_blog_to_github ⟨none, none, none, none⟩ (fun _ => none) argsTest happyHttp).1 =
      [("status", Json.str "error"),
       ("message", Json.str "No blog content found. Writer must save first.")] ∧
    "No blog content found. Writer must save first." ≠ "BLOG_GITHUB_TOKEN not configured" :=
  ⟨rfl, by decide⟩

/-- C4 as amended: if the token environment value is absent or empty AND the
artifact check passes (an artifact with text exists), the result is the
auth-configuration error with message `BLOG_GITHUB_TOKEN not configured`,
and zero network calls are issued. -/
theorem missing_token_auth_error_with_artifact (env : Env)
    (store : String → Option (Option String)) (args : PublishArgs) (http : Http)
    (content : String)
    (hart : store BLOG_ARTIFACT_FILENAME = some (some content))
    (htok : env.blog_github_token = none ∨ env.blog_github_token = some "") :
    publish_blog_to_github env store args http =
      ([("status", Json.str "error"),
        ("message", Json.str "BLOG_GITHUB_TOKEN not configured"),
        ("details", Json.null)], []) := by
  rcases htok with h | h <;>
    simp [publish_blog_to_github, hart, get_github_headers, h, handleExc]

/-- Witness for the amended C4 at a concrete store and empty environment. -/
theorem missing_token_auth_error_with_artifact_witness :
    publish_blog_to_github ⟨none, none, none, none⟩ storeTest argsTest happyHttp =
      ([("status", Json.str "error"),
        ("message", Json.str "BLOG_GITHUB_TOKEN not configured"),
        ("details", Json.null)], []) :=
  missing_token_auth_error_with_artifact ⟨none, none, none, none⟩ storeTest argsTest happyHttp
    "# Test Blog\n\nThis is the blog content." rfl (Or.inl rfl)

set_option maxHeartbeats 4000000 in
/-- C8: for every environment, artifact store, argument record and
behaviour of the HTTP layer (transport exceptions and arbitrary responses
included), `publish_blog_to_github` returns a dictionary whose status is
success or error and which carries a string message; the embedded function
is total, so no exception escapes to the caller. -/
theorem publish_always_returns_structured_dict (env : Env)
    (store : String → Option (Option String)) (args : PublishArgs) (http : Http) :
    resultOk (publish_blog_to_github env store args http).1 := by
  unfold publish_blog_to_github
  dsimp only
  repeat' split
  all_goals first
    | apply handleExc_shape
    | apply afterBranch_shape
    | simp [resultOk, lookupStr]

/-- C2: when the artifact exists and every API call succeeds on first
attempt (repo info 200, ref lookup 200 with a SHA, branch create 201, file
write 200 or 201, PR create 201 with an html_url), the result has status
success, the non-empty pr_url taken from the PR-create response, branch
equal to the branch_name argument, and file_path equal to the configured
content path joined with "/" to the file_name argument. -/
theorem publish_success_on_all_success (env : Env)
    (store : String → Option (Option String)) (args : PublishArgs) (http : Http)
    (content tok sha u t1 t2 t3 t4 t5 t6 : String)
    (f1 : List (String × Json)) (j2 jobj j6 : Json) (b3 b4 b5 : Option Json) (s4 s5 : Nat)
    (hart : store BLOG_ARTIFACT_FILENAME = some (some content))
    (htok : env.blog_github_token = some tok) (hne : tok ≠ "")
    (hri : http.repoInfo = .response ⟨200, t1, some (.obj f1)⟩)
    (hrl : http.refLookup = .response ⟨200, t2, some j2⟩)
    (hobj : j2.dictGet "object" = .ok (some jobj))
    (hsha : jobj.dictGet "sha" = .ok (some (.str sha))) (hshane : sha ≠ "")
    (hbc : http.branchCreate = .response ⟨201, t3, b3⟩)
    (hfp : http.fileProbe = .response ⟨s4, t4, b4⟩) (hs4 : s4 ≠ 200)
    (hfw : http.fileWrite = .response ⟨s5, t5, b5⟩) (hs5 : s5 = 200 ∨ s5 = 201)
    (hpc : http.prCreate = .response ⟨201, t6, some j6⟩)
    (hurl : j6.dictGet "html_url" = .ok (some (.str u))) (hune : u ≠ "") :
    (publish_blog_to_github env store args http).1 =
      [("status", .str "success"), ("message", .str "Blog post published successfully"),
       ("pr_url", .str u), ("branch", .str args.branch_name),
       ("file_path", .str ((get_repo_config env).content_path ++ "/" ++ args.file_name))] ∧
      u ≠ "" := by
  refine ⟨?_, hune⟩
  rcases hs5 with hs5 | hs5 <;>
  · subst hs5
    simp [publish_blog_to_github, publishAfterBranch, probeFileSha, hart, htok, hne, hri, hrl,
      hobj, hsha, hshane, hbc, hfp, hs4, hfw, hpc, hurl, get_github_headers, respJson,
      Json.truthy, dictGet_obj]

/-- Witness for C2: the specification scenario (default repository
configuration, the test artifact, branch `blog/test`, file `test.md`) under
all-success responses. -/
theorem publish_success_on_all_success_witness :
    (publish_blog_to_github envTok storeTest argsTest happyHttp).1 =
      [("status", Json.str "success"),
       ("message", Json.str "Blog post published successfully"),
       ("pr_url", Json.str "https://github.com/pr/1"),
       ("branch", Json.str "blog/test"),
       ("file_path", Json.str "src/data/blog/test.md")] ∧
      "https://github.com/pr/1" ≠ "" :=
  publish_success_on_all_success envTok storeTest argsTest happyHttp
    _ _ _ _ _ _ _ _ _ _ _ _ _ _ _ _ _ _ _
    rfl rfl (by decide) rfl rfl rfl rfl (by decide) rfl rfl (by decide) rfl (Or.inr rfl)
    rfl rfl (by decide)

set_option maxHeartbeats 4000000 in
/-- C1: for every artifact content string, the content field of the
file-write PUT request, base64-decoded, is byte-identical to the UTF-8
encoding of the artifact content loaded from the store; no other
transformation is applied. -/
theorem put_content_is_exact_utf8_base64 (env : Env)
    (store : String → Option (Option String)) (args : PublishArgs) (http : Http)
    (content tok sha t1 t2 : String)
    (f1 : List (String × Json)) (j2 jobj fsha : Json) (r3 r4 : Response)
    (hart : store BLOG_ARTIFACT_FILENAME = some (some content))
    (htok : env.blog_github_token = some tok) (hne : tok ≠ "")
    (hri : http.repoInfo = .response ⟨200, t1, some (.obj f1)⟩)
    (hrl : http.refLookup = .response ⟨200, t2, some j2⟩)
    (hobj : j2.dictGet "object" = .ok (some jobj))
    (hsha : jobj.dictGet "sha" = .ok (some (.str sha))) (hshane : sha ≠ "")
    (hbc : http.branchCreate = .response r3)
    (hbcok : r3.status = 201 ∨ (r3.status = 422 ∧ pyIn "already exists" r3.text = true))
    (hfp : http.fileProbe = .response r4)
    (hps : probeFileSha r4 = .ok fsha) :
    ∃ req, (publish_blog_to_github env store args http).2.get? 4 = some req ∧
      req.method = "PUT" ∧
      ∃ b64 : String, lookupStr req.body "content" = some (.str b64) ∧
        b64Decode b64.data = some (utf8Encode content) := by
  rcases hbcok with h201 | ⟨h422, hconf⟩
  · simp [publish_blog_to_github, hart, htok, hne, hri, hrl, hobj, hsha, hshane, hbc,
      h201, get_github_headers, respJson, Json.truthy, dictGet_obj]
    unfold publishAfterBranch
    simp only [hfp, hps]
    repeat' split
    all_goals exact ⟨_, rfl, rfl, _, rfl, b64_utf8_roundtrip content⟩
  · simp [publish_blog_to_github, hart, htok, hne, hri, hrl, hobj, hsha, hshane, hbc,
      h422, hconf, get_github_headers, respJson, Json.truthy, dictGet_obj]
    unfold publishAfterBranch
    simp only [hfp, hps]
    repeat' split
    all_goals exact ⟨_, rfl, rfl, _, rfl, b64_utf8_roundtrip content⟩

/-- Witness for C1 at the specification scenario content, whose multi-line
artifact round-trips through the base64 transport encoding. -/
theorem put_content_is_exact_utf8_base64_witness :
    ∃ req, (publish_blog_to_github envTok storeTest argsTest happyHttp).2.get? 4 = some req ∧
      req.method = "PUT" ∧
      ∃ b64 : String, lookupStr req.body "content" = some (.str b64) ∧
        b64Decode b64.data =
          some (utf8Encode "# Test Blog\n\nThis is the blog content.") :=
  put_content_is_exact_utf8_base64 envTok storeTest argsTest happyHttp
    _ _ _ _ _ _ _ _ _ _ _
    rfl rfl (by decide) rfl rfl rfl rfl (by decide) rfl (Or.inl rfl) rfl rfl

theorem charsStartWith_append (n r : List Char) : charsStartWith (n ++ r) n = true := by
  induction n with
  | nil => cases r <;> rfl
  | cons c cs ih => simp [charsStartWith, ih]

theorem charsContain_of_startsWith (hay needle : List Char)
    (h : charsStartWith hay needle = true) : charsContain hay needle = true := by
  cases hay with
  | nil =>
    cases needle with
    | nil => rfl
    | cons c cs => simp [charsStartWith] at h
  | cons c t => simp [charsContain, h]

set_option maxHeartbeats 4000000 in
/-- C5: a branch-create response of 422 whose body contains "already exists"
does not abort the workflow — the file probe, file write and PR creation
still execute and the run can end in success — while any other non-201
branch-create response aborts with a message containing
"Failed to create branch". -/
theorem branch_conflict_tolerated (env : Env)
    (store : String → Option (Option String)) (args : PublishArgs) (http : Http)
    (content tok sha t1 t2 : String) (f1 : List (String × Json)) (j2 jobj : Json)
    (hart : store BLOG_ARTIFACT_FILENAME = some (some content))
    (htok : env.blog_github_token = some tok) (hne : tok ≠ "")
    (hri : http.repoInfo = .response ⟨200, t1, some (.obj f1)⟩)
    (hrl : http.refLookup = .response ⟨200, t2, some j2⟩)
    (hobj : j2.dictGet "object" = .ok (some jobj))
    (hsha : jobj.dictGet "sha" = .ok (some (.str sha))) (hshane : sha ≠ "") :
    (∀ t3 b3 s4 t4 b4 s5 t5 b5 t6 j6 u,
      http.branchCreate = .response ⟨422, t3, b3⟩ →
      pyIn "already exists" t3 = true →
      http.fileProbe = .response ⟨s4, t4, b4⟩ → s4 ≠ 200 →
      http.fileWrite = .response ⟨s5, t5, b5⟩ → s5 = 200 ∨ s5 = 201 →
      http.prCreate = .response ⟨201, t6, some j6⟩ →
      j6.dictGet "html_url" = .ok (some (.str u)) →
      (publish_blog_to_github env store args http).1 =
        [("status", .str "success"), ("message", .str "Blog post published successfully"),
         ("pr_url", .str u), ("branch", .str args.branch_name),
         ("file_path", .str ((get_repo_config env).content_path ++ "/" ++ args.file_name))] ∧
      (publish_blog_to_github env store args http).2.map Request.method =
        ["GET", "GET", "POST", "GET", "PUT", "POST"]) ∧
    (∀ r3, http.branchCreate = .response r3 → r3.status ≠ 201 →
      ¬(r3.status = 422 ∧ pyIn "already exists" r3.text = true) →
      lookupStr (publish_blog_to_github env store args http).1 "status" = some (.str "error") ∧
      ∃ m, lookupStr (publish_blog_to_github env store args http).1 "message" = some (.str m) ∧
        m = "Failed to create branch: " ++ toString r3.status ∧
        pyIn "Failed to create branch" m = true) := by
  constructor
  · intro t3 b3 s4 t4 b4 s5 t5 b5 t6 j6 u hbc hconf hfp hs4 hfw hs5 hpc hurl
    rcases hs5 with hs5 | hs5 <;>
    · subst hs5
      simp [publish_blog_to_github, publishAfterBranch, probeFileSha, hart, htok, hne, hri,
        hrl, hobj, hsha, hshane, hbc, hconf, hfp, hs4, hfw, hpc, hurl, get_github_headers,
        respJson, Json.truthy, dictGet_obj]
  · intro r3 hbc hne201 hno
    have hfalse : (decide (r3.status = 422) && pyIn "already exists" r3.text) = false := by
      by_cases h422 : r3.status = 422
      · have hp : pyIn "already exists" r3.text = false := by
          cases hp : pyIn "already exists" r3.text
          · rfl
          · exact absurd ⟨h422, hp⟩ hno
        simp [hp]
      · simp [h422]
    have hm : pyIn "Failed to create branch" ("Failed to create branch: " ++ toString r3.status)
        = true := by
      unfold pyIn
      rw [String.data_append]
      apply charsContain_of_startsWith
      have hdat : ("Failed to create branch: ").data =
          ("Failed to create branch").data ++ (": ").data := rfl
      rw [hdat, List.append_assoc]
      exact charsStartWith_append _ _
    have hres : (publish_blog_to_github env store args http).1 =
        [("status", Json.str "error"),
         ("message", Json.str ("Failed to create branch: " ++ toString r3.status)),
         ("details", Json.str r3.text)] := by
      simp [publish_blog_to_github, hart, htok, hne, hri, hrl, hobj, hsha, hshane, hbc,
        hfalse, hne201, get_github_headers, respJson, Json.truthy, dictGet_obj]
    rw [hres]
    exact ⟨by simp [lookupStr], "Failed to create branch: " ++ toString r3.status,
      by simp [lookupStr], rfl, hm⟩

/-- Witness for C5: the branch conflict run still issues the probe, write
and PR requests and succeeds; the server-error run aborts with the
branch-create failure message. -/
theorem branch_conflict_tolerated_witness :
    ((publish_blog_to_github envTok storeTest argsTest branchConflictHttp).1 =
      [("status", Json.str "success"),
       ("message", Json.str "Blog post published successfully"),
       ("pr_url", Json.str "https://github.com/pr/1"), ("branch", Json.str "blog/test"),
       ("file_path", Json.str "src/data/blog/test.md")] ∧
     (publish_blog_to_github envTok storeTest argsTest branchConflictHttp).2.map
       Request.method = ["GET", "GET", "POST", "GET", "PUT", "POST"]) ∧
    (lookupStr (publish_blog_to_github envTok storeTest argsTest branchFailHttp).1 "status" =
        some (.str "error") ∧
     ∃ m, lookupStr (publish_blog_to_github envTok storeTest argsTest branchFailHttp).1
         "message" = some (.str m) ∧
       m = "Failed to create branch: 500" ∧
       pyIn "Failed to create branch" m = true) :=
  ⟨(branch_conflict_tolerated envTok storeTest argsTest branchConflictHttp _ _ _ _ _ _ _ _
      rfl rfl (by decide) rfl rfl rfl rfl (by decide)).1
      _ _ _ _ _ _ _ _ _ _ _ rfl (by decide) rfl (by decide) rfl (Or.inr rfl) rfl rfl,
   (branch_conflict_tolerated envTok storeTest argsTest branchFailHttp _ _ _ _ _ _ _ _
      rfl rfl (by decide) rfl rfl rfl rfl (by decide)).2
      _ rfl (by decide) (by decide)⟩

set_option maxHeartbeats 4000000 in
/-- C6: a PR-create response of 422 whose body contains "A pull request
already exists" triggers a list-lookup of open PRs filtered by head
owner:branch and state open; a 200 lookup with a non-empty list yields
success with the first entry's html_url; an empty list or a non-200 lookup
yields the error "PR already exists but could not find its URL". -/
theorem pr_conflict_lookup (env : Env)
    (store : String → Option (Option String)) (args : PublishArgs) (http : Http)
    (content tok sha t1 t2 t3 t4 t5 t6 : String)
    (f1 : List (String × Json)) (j2 jobj : Json) (b3 b4 b5 b6 : Option Json) (s4 s5 : Nat)
    (hart : store BLOG_ARTIFACT_FILENAME = some (some content))
    (htok : env.blog_github_token = some tok) (hne : tok ≠ "")
    (hri : http.repoInfo = .response ⟨200, t1, some (.obj f1)⟩)
    (hrl : http.refLookup = .response ⟨200, t2, some j2⟩)
    (hobj : j2.dictGet "object" = .ok (some jobj))
    (hsha : jobj.dictGet "sha" = .ok (some (.str sha))) (hshane : sha ≠ "")
    (hbc : http.branchCreate = .response ⟨201, t3, b3⟩)
    (hfp : http.fileProbe = .response ⟨s4, t4, b4⟩) (hs4 : s4 ≠ 200)
    (hfw : http.fileWrite = .response ⟨s5, t5, b5⟩) (hs5 : s5 = 200 ∨ s5 = 201)
    (hpc : http.prCreate = .response ⟨422, t6, b6⟩)
    (hconf : pyIn "A pull request already exists" t6 = true) :
    (∀ t7 f7 rest7 u,
      http.prList = .response ⟨200, t7, some (.arr (Json.obj f7 :: rest7))⟩ →
      lookupStr f7 "html_url" = some u →
      (publish_blog_to_github env store args http).1 =
        [("status", .str "success"), ("message", .str "Blog post published successfully"),
         ("pr_url", u), ("branch", .str args.branch_name),
         ("file_path", .str ((get_repo_config env).content_path ++ "/" ++ args.file_name))] ∧
      (publish_blog_to_github env store args http).2.get? 6 = some
        { method := "GET",
          url := GITHUB_API_URL ++ "/repos/" ++ (get_repo_config env).owner ++ "/" ++
            (get_repo_config env).repo ++ "/pulls",
          params := [("head", (get_repo_config env).owner ++ ":" ++ args.branch_name),
                     ("state", "open")],
          body := [] }) ∧
    (∀ r7, http.prList = .response r7 →
      (r7.status ≠ 200 ∨ r7.jsonBody = some (.arr [])) →
      (publish_blog_to_github env store args http).1 =
        [("status", .str "error"),
         ("message", .str "PR already exists but could not find its URL"),
         ("details", .str t6)]) := by
  constructor
  · intro t7 f7 rest7 u h7 hu
    rcases hs5 with hs5 | hs5 <;>
    · subst hs5
      simp [publish_blog_to_github, publishAfterBranch, probeFileSha, hart, htok, hne, hri,
        hrl, hobj, hsha, hshane, hbc, hfp, hs4, hfw, hpc, hconf, h7, hu, get_github_headers,
        respJson, Json.truthy, Json.index0, dictGet_obj]
  · intro r7 h7 hc
    rcases hc with hs | hj
    · rcases hs5 with hs5 | hs5 <;>
      · subst hs5
        simp [publish_blog_to_github, publishAfterBranch, probeFileSha, hart, htok, hne, hri,
          hrl, hobj, hsha, hshane, hbc, hfp, hs4, hfw, hpc, hconf, h7, hs, get_github_headers,
          respJson, Json.truthy, dictGet_obj]
    · by_cases hs200 : r7.status = 200
      · rcases hs5 with hs5 | hs5 <;>
        · subst hs5
          simp [publish_blog_to_github, publishAfterBranch, probeFileSha, hart, htok, hne, hri,
            hrl, hobj, hsha, hshane, hbc, hfp, hs4, hfw, hpc, hconf, h7, hs200, hj,
            get_github_headers, respJson, Json.truthy, dictGet_obj]
      · rcases hs5 with hs5 | hs5 <;>
        · subst hs5
          simp [publish_blog_to_github, publishAfterBranch, probeFileSha, hart, htok, hne, hri,
            hrl, hobj, hsha, hshane, hbc, hfp, hs4, hfw, hpc, hconf, h7, hs200,
            get_github_headers, respJson, Json.truthy, dictGet_obj]

/-- Witness for C6: with the PR conflict and a list lookup that finds an
existing PR, the run succeeds with its URL; with an empty lookup result it
fails with the lookup error. -/
theorem pr_conflict_lookup_witness :
    ((publish_blog_to_github envTok storeTest argsTest prConflictFoundHttp).1 =
      [("status", Json.str "success"),
       ("message", Json.str "Blog post published successfully"),
       ("pr_url", Json.str "https://github.com/pr/existing"),
       ("branch", Json.str "blog/test"),
       ("file_path", Json.str "src/data/blog/test.md")] ∧
     (publish_blog_to_github envTok storeTest argsTest prConflictFoundHttp).2.get? 6 = some
        { method := "GET", url := "https://api.github.com/repos/queryplanner/blogs/pulls",
          params := [("head", "queryplanner:blog/test"), ("state", "open")], body := [] }) ∧
    ((publish_blog_to_github envTok storeTest argsTest prConflictEmptyHttp).1 =
      [("status", Json.str "error"),
       ("message", Json.str "PR already exists but could not find its URL"),
       ("details", Json.str "A pull request already exists for this head.")]) :=
  ⟨(pr_conflict_lookup envTok storeTest argsTest prConflictFoundHttp _ _ _ _ _ _ _ _ _ _ _ _
      _ _ _ _ _ _ rfl rfl (by decide) rfl rfl rfl rfl (by decide) rfl rfl (by decide) rfl
      (Or.inr rfl) rfl (by decide)).1
      _ _ _ _ rfl rfl,
   (pr_conflict_lookup envTok storeTest argsTest prConflictEmptyHttp _ _ _ _ _ _ _ _ _ _ _ _
      _ _ _ _ _ _ rfl rfl (by decide) rfl rfl rfl rfl (by decide) rfl rfl (by decide) rfl
      (Or.inr rfl) rfl (by decide)).2
      _ rfl (Or.inr rfl)⟩

set_option maxHeartbeats 4000000 in
/-- C7: on every run reaching the file-write step, a probe response of 200
with a (non-empty string) sha puts exactly that sha into the PUT body, and a
probe response with any non-200 status leaves the sha field out of the PUT
body. -/
theorem file_write_sha_presence (env : Env)
    (store : String → Option (Option String)) (args : PublishArgs) (http : Http)
    (content tok sha t1 t2 : String)
    (f1 : List (String × Json)) (j2 jobj : Json) (r3 : Response)
    (hart : store BLOG_ARTIFACT_FILENAME = some (some content))
    (htok : env.blog_github_token = some tok) (hne : tok ≠ "")
    (hri : http.repoInfo = .response ⟨200, t1, some (.obj f1)⟩)
    (hrl : http.refLookup = .response ⟨200, t2, some j2⟩)
    (hobj : j2.dictGet "object" = .ok (some jobj))
    (hsha : jobj.dictGet "sha" = .ok (some (.str sha))) (hshane : sha ≠ "")
    (hbc : http.branchCreate = .response r3)
    (hbcok : r3.status = 201 ∨ (r3.status = 422 ∧ pyIn "already exists" r3.text = true)) :
    (∀ t4 f4 s, http.fileProbe = .response ⟨200, t4, some (.obj f4)⟩ →
      lookupStr f4 "sha" = some (.str s) → s ≠ "" →
      ∃ req, (publish_blog_to_github env store args http).2.get? 4 = some req ∧
        req.method = "PUT" ∧ lookupStr req.body "sha" = some (.str s)) ∧
    (∀ r4, http.fileProbe = .response r4 → r4.status ≠ 200 →
      ∃ req, (publish_blog_to_github env store args http).2.get? 4 = some req ∧
        req.method = "PUT" ∧ lookupStr req.body "sha" = none) := by
  constructor
  · intro t4 f4 s hfp hs hsne
    have hps : probeFileSha ⟨200, t4, some (.obj f4)⟩ = .ok (.str s) := by
      simp [probeFileSha, respJson, dictGet_obj, hs]
    have hif : (if (Json.str s).truthy = true then [("sha", Json.str s)] else []) =
        [("sha", Json.str s)] := by simp [Json.truthy, hsne]
    rcases hbcok with h201 | ⟨h422, hconf⟩
    · simp [publish_blog_to_github, hart, htok, hne, hri, hrl, hobj, hsha, hshane, hbc,
        h201, get_github_headers, respJson, Json.truthy, dictGet_obj]
      unfold publishAfterBranch
      simp only [hfp, hps, hif]
      repeat' split
      all_goals exact ⟨_, rfl, rfl, rfl⟩
    · simp [publish_blog_to_github, hart, htok, hne, hri, hrl, hobj, hsha, hshane, hbc,
        h422, hconf, get_github_headers, respJson, Json.truthy, dictGet_obj]
      unfold publishAfterBranch
      simp only [hfp, hps, hif]
      repeat' split
      all_goals exact ⟨_, rfl, rfl, rfl⟩
  · intro r4 hfp hs4
    have hps : probeFileSha r4 = .ok Json.null := by simp [probeFileSha, hs4]
    have hif : (if (Json.null).truthy = true then [("sha", Json.null)] else []) =
        ([] : List (String × Json)) := by simp [Json.truthy]
    rcases hbcok with h201 | ⟨h422, hconf⟩
    · simp [publish_blog_to_github, hart, htok, hne, hri, hrl, hobj, hsha, hshane, hbc,
        h201, get_github_headers, respJson, Json.truthy, dictGet_obj]
      unfold publishAfterBranch
      simp only [hfp, hps, hif, List.append_nil]
      repeat' split
      all_goals exact ⟨_, rfl, rfl, rfl⟩
    · simp [publish_blog_to_github, hart, htok, hne, hri, hrl, hobj, hsha, hshane, hbc,
        h422, hconf, get_github_headers, respJson, Json.truthy, dictGet_obj]
      unfold publishAfterBranch
      simp only [hfp, hps, hif, List.append_nil]
      repeat' split
      all_goals exact ⟨_, rfl, rfl, rfl⟩

/-- Witness for C7: a probe that finds sha `file-sha-1` puts it into the PUT
body; a 404 probe leaves the PUT body without a sha field. -/
theorem file_write_sha_presence_witness :
    (∃ req, (publish_blog_to_github envTok storeTest argsTest probeShaHttp).2.get? 4 =
        some req ∧ req.method = "PUT" ∧
        lookupStr req.body "sha" = some (.str "file-sha-1")) ∧
    (∃ req, (publish_blog_to_github envTok storeTest argsTest happyHttp).2.get? 4 =
        some req ∧ req.method = "PUT" ∧ lookupStr req.body "sha" = none) :=
  ⟨(file_write_sha_presence envTok storeTest argsTest probeShaHttp _ _ _ _ _ _ _ _ _
      rfl rfl (by decide) rfl rfl rfl rfl (by decide) rfl (Or.inl rfl)).1
      _ _ _ rfl rfl (by decide),
   (file_write_sha_presence envTok storeTest argsTest happyHttp _ _ _ _ _ _ _ _ _
      rfl rfl (by decide) rfl rfl rfl rfl (by decide) rfl (Or.inl rfl)).2
      _ rfl (by decide)⟩

theorem afterBranch_head (args : PublishArgs) (http : Http) (content : String)
    (ffp burl owner : String) (db : Json) (q1 : Request) (t : List Request) :
    (publishAfterBranch args http content ffp burl owner db (q1 :: t)).2.get? 0 = some q1 := by
  obtain ⟨s, hs⟩ := afterBranch_trace args http content ffp burl owner db (q1 :: t)
  rw [hs]
  rfl

/-- C9 counterexample: `publish_blog_to_github` (tools.py lines 101 to 108)
takes exactly branch_name, file_name, commit_message, pr_title and pr_body —
no repo_owner or repo_name parameters exist — and two calls whose five
arguments differ in every field still address the same configured
queryplanner/blogs repository, so no caller-supplied override is possible. -/
theorem publish_args_cannot_override_repo_cx :
    ((publish_blog_to_github envTok storeTest argsAlpha happyHttp).2.get? 0).map Request.url =
      some "https://api.github.com/repos/queryplanner/blogs" ∧
    ((publish_blog_to_github envTok storeTest argsBeta happyHttp).2.get? 0).map Request.url =
      some "https://api.github.com/repos/queryplanner/blogs" ∧
    argsAlpha ≠ argsBeta :=
  ⟨rfl, rfl, by decide⟩

set_option maxHeartbeats 4000000 in
/-- C9 as amended: the publish tool accepts no repo_owner or repo_name
parameters; for every argument record, whenever the first request is issued
its URL addresses exactly the repository from the environment configuration
(owner default queryplanner, name default blogs). The optional overrides of
the spec exist only in the near-duplicate agent.tools implementation, which
is not part of src. -/
theorem repo_owner_name_from_env_only (env : Env)
    (store : String → Option (Option String)) (args : PublishArgs) (http : Http)
    (content tok : String)
    (hart : store BLOG_ARTIFACT_FILENAME = some (some content))
    (htok : env.blog_github_token = some tok) (hne : tok ≠ "") :
    (publish_blog_to_github env store args http).2.get? 0 =
      some { method := "GET",
             url := GITHUB_API_URL ++ "/repos/" ++ (get_repo_config env).owner ++ "/" ++
               (get_repo_config env).repo,
             params := [], body := [] } := by
  have hh : get_github_headers env =
      .ok [("Authorization", "Bearer " ++ tok),
           ("Accept", "application/vnd.github.v3+json"),
           ("X-GitHub-Api-Version", "2022-11-28")] := by
    simp [get_github_headers, htok, hne]
  unfold publish_blog_to_github
  rw [hart, hh]
  dsimp only
  repeat' split
  all_goals first
    | rfl
    | apply afterBranch_head

/-- Witness for the amended C9 at the default configuration. -/
theorem repo_owner_name_from_env_only_witness :
    (publish_blog_to_github envTok storeTest argsTest happyHttp).2.get? 0 =
      some { method := "GET", url := "https://api.github.com/repos/queryplanner/blogs",
             params := [], body := [] } :=
  repo_owner_name_from_env_only envTok storeTest argsTest happyHttp _ _
    rfl rfl (by decide)

set_option maxHeartbeats 4000000 in
/-- C10: a 200 repository-metadata response whose JSON body has no
default_branch field does not make the run fail — the base-ref lookup uses
branch main, the PR is opened with base main, and the run can still end in
success. -/
theorem missing_default_branch_falls_back_to_main (env : Env)
    (store : String → Option (Option String)) (args : PublishArgs) (http : Http)
    (content tok sha u t1 t2 t3 t4 t5 t6 : String)
    (f1 : List (String × Json)) (j2 jobj j6 : Json) (b3 b4 b5 : Option Json) (s4 s5 : Nat)
    (hart : store BLOG_ARTIFACT_FILENAME = some (some content))
    (htok : env.blog_github_token = some tok) (hne : tok ≠ "")
    (hri : http.repoInfo = .response ⟨200, t1, some (.obj f1)⟩)
    (hdb : lookupStr f1 "default_branch" = none)
    (hrl : http.refLookup = .response ⟨200, t2, some j2⟩)
    (hobj : j2.dictGet "object" = .ok (some jobj))
    (hsha : jobj.dictGet "sha" = .ok (some (.str sha))) (hshane : sha ≠ "")
    (hbc : http.branchCreate = .response ⟨201, t3, b3⟩)
    (hfp : http.fileProbe = .response ⟨s4, t4, b4⟩) (hs4 : s4 ≠ 200)
    (hfw : http.fileWrite = .response ⟨s5, t5, b5⟩) (hs5 : s5 = 200 ∨ s5 = 201)
    (hpc : http.prCreate = .response ⟨201, t6, some j6⟩)
    (hurl : j6.dictGet "html_url" = .ok (some (.str u))) :
    (publish_blog_to_github env store args http).2.get? 1 =
      some { method := "GET",
             url := GITHUB_API_URL ++ "/repos/" ++ (get_repo_config env).owner ++ "/" ++
               (get_repo_config env).repo ++ "/git/ref/heads/main",
             params := [], body := [] } ∧
    (∃ req6, (publish_blog_to_github env store args http).2.get? 5 = some req6 ∧
      lookupStr req6.body "base" = some (.str "main")) ∧
    lookupStr (publish_blog_to_github env store args http).1 "status" =
      some (.str "success") := by
  rcases hs5 with hs5 | hs5 <;>
  · subst hs5
    refine ⟨?_, ⟨⟨"POST",
        GITHUB_API_URL ++ "/repos/" ++ (get_repo_config env).owner ++ "/" ++
          (get_repo_config env).repo ++ "/pulls",
        [],
        [("title", .str args.pr_title), ("body", .str args.pr_body),
         ("head", .str args.branch_name), ("base", .str "main")]⟩, ?_, ?_⟩, ?_⟩ <;>
      simp [publish_blog_to_github, publishAfterBranch, probeFileSha, pyStr, hart, htok, hne,
        hri, hdb, hrl, hobj, hsha, hshane, hbc, hfp, hs4, hfw, hpc, hurl, get_github_headers,
        respJson, Json.truthy, dictGet_obj, lookupStr, String.append_assoc]

/-- Witness for C10: repository metadata with an empty JSON object still
leads to a successful run over branch main. -/
theorem missing_default_branch_falls_back_to_main_witness :
    (publish_blog_to_github envTok storeTest argsTest noDefaultBranchHttp).2.get? 1 =
      some { method := "GET",
             url := "https://api.github.com/repos/queryplanner/blogs/git/ref/heads/main",
             params := [], body := [] } ∧
    (∃ req6, (publish_blog_to_github envTok storeTest argsTest noDefaultBranchHttp).2.get? 5 =
        some req6 ∧ lookupStr req6.body "base" = some (.str "main")) ∧
    lookupStr (publish_blog_to_github envTok storeTest argsTest noDefaultBranchHttp).1
      "status" = some (.str "success") :=
  missing_default_branch_falls_back_to_main envTok storeTest argsTest noDefaultBranchHttp
    _ _ _ _ _ _ _ _ _ _ _ _ _ _ _ _ _ _ _
    rfl rfl (by decide) rfl rfl rfl rfl rfl (by decide) rfl rfl (by decide) rfl
    (Or.inr rfl) rfl rfl

end BlogAgent
